import Mathlib

/-!
# PowerHouse Gym CMS backend — verification of the data-access layer

Shallow embedding of the authorization-aware data-access and mutation layer
of the PowerHouse Gym content-management backend (Express routes in
`src/server/routes`, serverless handlers in `src/api`, SQLite schema in the
database utility).  Rows of each table become Lean structures, the database
becomes a record of row lists plus per-table id counters, and each HTTP
handler becomes a pure function from request data and database state to a
response together with the successor state.

Modelling conventions, applied uniformly:
* SQLite 0/1 integer flags are Lean `Bool`s (encode/decode at the boundary).
* `DATETIME` values are `Nat` timestamps; `CURRENT_TIMESTAMP` becomes an
  explicit `now : Nat` argument.
* A JSON request body field that may be absent (`undefined`) is an `Option`;
  the JavaScript idiom `x !== undefined ? x : d` is `Option.getD`, and the
  falsy-coalescing idiom `x || d` is `jsOrStr` / `jsOrInt` below.
* `bcrypt.compare` is consumed as an opaque `verify : String → String → Bool`
  collaborator, per the specification's exclusion of the hashing primitive.
* SQL `ORDER BY` is modelled by a deterministic stable sort (`sortBy`); the
  claims only speak about which rows are returned, stated via `List.Perm`.
-/

namespace Gym

/-- JavaScript `x || d` on an optional string field: the empty string is
falsy, so both an absent field and `""` yield the default. -/
def jsOrStr (v : Option String) (d : String) : String :=
  match v with
  | some s => if s = "" then d else s
  | none => d

/-- JavaScript `x || d` on an optional integer field: `0` is falsy. -/
def jsOrInt (v : Option Int) (d : Int) : Int :=
  match v with
  | some n => if n = 0 then d else n
  | none => d

/-- JavaScript `x || d` on an optional timestamp field: `0` is falsy
(mirrorring the falsy empty date string). -/
def jsOrNat (v : Option Nat) (d : Nat) : Nat :=
  match v with
  | some n => if n = 0 then d else n
  | none => d

/-- ASCII lower-casing of one character, as `email.toLowerCase()` behaves on
the ASCII e-mail addresses this system stores. -/
def lowerChar (c : Char) : Char :=
  if 'A' ≤ c ∧ c ≤ 'Z' then Char.ofNat (c.toNat + 32) else c

/-- ASCII lower-casing of a string (JavaScript `toLowerCase`). -/
def lowerStr (s : String) : String :=
  String.mk (s.data.map lowerChar)

/-- Stable insertion of an element into a sorted list: `a` goes after every
earlier element `b` with `le b a`. -/
def insertSorted (le : α → α → Bool) (a : α) : List α → List α
  | [] => [a]
  | b :: t => if le b a then b :: insertSorted le a t else a :: b :: t

/-- Deterministic stable sort used to model SQL `ORDER BY`. -/
def sortBy (le : α → α → Bool) : List α → List α
  | [] => []
  | a :: t => insertSorted le a (sortBy le t)

deriving instance DecidableEq for Except

/-- An error response: HTTP status code plus the `error` message text. -/
structure ErrResp where
  status : Nat
  error : String
  deriving DecidableEq

/-- Comparator for `ORDER BY sort_order ASC, created_at DESC`. -/
def leSortCreated (so₁ so₂ : Int) (ca₁ ca₂ : Nat) : Bool :=
  decide (so₁ < so₂) || (decide (so₁ = so₂) && decide (ca₂ ≤ ca₁))

/-- Comparator for `ORDER BY sort_order ASC` (ties keep stored order). -/
def leSortOnly (so₁ so₂ : Int) : Bool :=
  decide (so₁ ≤ so₂)

/-! ## Data model: one structure per table of the schema -/

/-- Row of the `users` table. -/
structure User where
  id : Nat
  email : String
  password_hash : String
  name : String
  role : String
  created_at : Nat
  last_login : Option Nat
  deriving DecidableEq

/-- Row of the `pages` table. -/
structure Page where
  id : Nat
  title : String
  slug : String
  content : String
  meta_title : String
  meta_description : String
  meta_keywords : String
  is_published : Bool
  created_at : Nat
  updated_at : Nat
  deriving DecidableEq

/-- Row of the `blog_posts` table. -/
structure BlogPost where
  id : Nat
  title : String
  slug : String
  excerpt : String
  content : String
  featured_image : String
  category : String
  tags : String
  status : String
  publish_date : Nat
  author_id : Nat
  created_at : Nat
  updated_at : Nat
  deriving DecidableEq

/-- Row of the `trainers` table. -/
structure Trainer where
  id : Nat
  name : String
  specialty : String
  bio : String
  photo : String
  email : String
  phone : String
  social_facebook : String
  social_instagram : String
  social_twitter : String
  certifications : String
  is_active : Bool
  sort_order : Int
  created_at : Nat
  deriving DecidableEq

/-- Row of the `classes` table. -/
structure GymClass where
  id : Nat
  name : String
  description : String
  short_description : String
  image : String
  trainer_id : Option Nat
  schedule : String
  duration : Int
  capacity : Int
  price : Int
  difficulty : String
  is_active : Bool
  sort_order : Int
  created_at : Nat
  deriving DecidableEq

/-- Row of the `membership_plans` table; `features` holds the serialized
JSON text exactly as stored. -/
structure Plan where
  id : Nat
  name : String
  price : Int
  billing_period : String
  description : String
  features : String
  is_featured : Bool
  is_active : Bool
  sort_order : Int
  created_at : Nat
  deriving DecidableEq

/-- Row of the `testimonials` table. -/
structure Testimonial where
  id : Nat
  client_name : String
  client_photo : String
  client_title : String
  content : String
  rating : Int
  is_approved : Bool
  sort_order : Int
  created_at : Nat
  deriving DecidableEq

/-- Row of the `gallery_albums` table. -/
structure Album where
  id : Nat
  name : String
  description : String
  cover_image : String
  is_active : Bool
  sort_order : Int
  created_at : Nat
  deriving DecidableEq

/-- Row of the `gallery_images` table (`album_id` is a nullable foreign key
with `ON DELETE CASCADE`). -/
structure Image where
  id : Nat
  album_id : Option Nat
  file_path : String
  thumbnail_path : String
  caption : String
  sort_order : Int
  created_at : Nat
  deriving DecidableEq

/-- Row of the `settings` table. -/
structure Setting where
  key : String
  value : String
  stype : String
  deriving DecidableEq

/-- Row of the append-only `activity_logs` table. -/
structure LogEntry where
  user_id : Option Nat
  action : String
  entity_type : Option String
  entity_id : Option Nat
  details : Option String
  deriving DecidableEq

/-- The relational store: one list of rows per table, plus the autoincrement
counter of each table that the modelled operations insert into. -/
structure Db where
  users : List User
  pages : List Page
  blog_posts : List BlogPost
  trainers : List Trainer
  classes : List GymClass
  membership_plans : List Plan
  testimonials : List Testimonial
  gallery_albums : List Album
  gallery_images : List Image
  settings : List Setting
  activity_logs : List LogEntry
  next_page_id : Nat
  next_post_id : Nat
  next_plan_id : Nat
  next_testimonial_id : Nat
  next_album_id : Nat
  next_image_id : Nat
  deriving DecidableEq

/-! ## List and single-item read operations

`isAdmin` models the source's read-path authorization check
`authHeader && authHeader.startsWith('Bearer ')`, which the specification
identifies with "caller is authenticated" for list/read endpoints. -/

/-- `GET /api/testimonials` (src/server/routes/testimonials.js): admins get
every row ordered by `sort_order ASC, created_at DESC`; the public gets the
rows with `is_approved = 1` ordered by `sort_order ASC`. -/
def listTestimonials (db : Db) (isAdmin : Bool) : List Testimonial :=
  if isAdmin then
    sortBy (fun a b => leSortCreated a.sort_order b.sort_order a.created_at b.created_at)
      db.testimonials
  else
    sortBy (fun a b => leSortOnly a.sort_order b.sort_order)
      (db.testimonials.filter (·.is_approved))

/-- `GET /api/trainers` (trainers routes): same visibility split on
`is_active`. -/
def listTrainers (db : Db) (isAdmin : Bool) : List Trainer :=
  if isAdmin then
    sortBy (fun a b => leSortCreated a.sort_order b.sort_order a.created_at b.created_at)
      db.trainers
  else
    sortBy (fun a b => leSortOnly a.sort_order b.sort_order)
      (db.trainers.filter (·.is_active))

/-- `GET /api/membership` (membership routes): visibility split on
`is_active`, ordered by `sort_order ASC`; features are parsed separately by
the plan read model below. -/
def listPlansRaw (db : Db) (isAdmin : Bool) : List Plan :=
  if isAdmin then
    sortBy (fun a b => leSortOnly a.sort_order b.sort_order) db.membership_plans
  else
    sortBy (fun a b => leSortOnly a.sort_order b.sort_order)
      (db.membership_plans.filter (·.is_active))

/-- `GET /api/pages` (pages routes): visibility split on `is_published`,
ordered by `created_at DESC`. -/
def listPages (db : Db) (isAdmin : Bool) : List Page :=
  if isAdmin then
    sortBy (fun a b => decide (b.created_at ≤ a.created_at)) db.pages
  else
    sortBy (fun a b => decide (b.created_at ≤ a.created_at))
      (db.pages.filter (·.is_published))

/-- `GET /api/classes` (classes routes): `LEFT JOIN trainers` adds the
trainer row (when any) to each class; the public only sees
`c.is_active = 1`. -/
def listClasses (db : Db) (isAdmin : Bool) : List (GymClass × Option Trainer) :=
  let joined := fun (c : GymClass) =>
    (c, c.trainer_id.bind (fun tid => db.trainers.find? (·.id = tid)))
  if isAdmin then
    sortBy (fun a b => leSortCreated a.1.sort_order b.1.sort_order a.1.created_at b.1.created_at)
      (db.classes.map joined)
  else
    sortBy (fun a b => leSortCreated a.1.sort_order b.1.sort_order a.1.created_at b.1.created_at)
      ((db.classes.filter (·.is_active)).map joined)

/-- `GET /api/gallery/albums` (src/server/routes/gallery.js): the query is
`WHERE ga.is_active = 1` with no admin branch — the same filtered result is
served to every caller; the join contributes each album's image count. -/
def listAlbums (db : Db) : List (Album × Nat) :=
  sortBy (fun a b => leSortCreated a.1.sort_order b.1.sort_order a.1.created_at b.1.created_at)
    ((db.gallery_albums.filter (·.is_active)).map
      (fun a => (a, (db.gallery_images.filter (·.album_id = some a.id)).length)))

/-- `GET /api/testimonials/:id`: a plain `SELECT ... WHERE id = ?` with no
visibility check — the `isAdmin` flag is accepted and ignored, like the
route ignores the authorization header. -/
def getTestimonial (db : Db) (_isAdmin : Bool) (id : Nat) :
    Except ErrResp Testimonial :=
  match db.testimonials.find? (·.id = id) with
  | none => .error ⟨404, "Testimonial not found"⟩
  | some t => .ok t

/-- `GET /api/trainers/:id`: plain lookup, no visibility check. -/
def getTrainer (db : Db) (_isAdmin : Bool) (id : Nat) :
    Except ErrResp Trainer :=
  match db.trainers.find? (·.id = id) with
  | none => .error ⟨404, "Trainer not found"⟩
  | some t => .ok t

/-- `GET /api/pages/:slug`: an unpublished page is served only when a
bearer header is present; otherwise the route answers 404. -/
def getPage (db : Db) (isAdmin : Bool) (slug : String) :
    Except ErrResp Page :=
  match db.pages.find? (·.slug = slug) with
  | none => .error ⟨404, "Page not found"⟩
  | some p =>
    if ¬p.is_published ∧ ¬isAdmin then .error ⟨404, "Page not found"⟩
    else .ok p

/-- `GET /api/blog/:slug` (blog routes, `optionalAuth`): the public only
sees a post when `status = 'published'` and `publish_date ≤ now`. -/
def getBlogPost (db : Db) (isAuth : Bool) (slug : String) (now : Nat) :
    Except ErrResp BlogPost :=
  match db.blog_posts.find? (·.slug = slug) with
  | none => .error ⟨404, "Post not found"⟩
  | some post =>
    if ¬isAuth ∧ (post.status ≠ "published" ∨ post.publish_date > now) then
      .error ⟨404, "Post not found"⟩
    else .ok post

/-- `logActivity` (src/server/middleware/auth.js): append exactly one row to
`activity_logs`. -/
def logActivity (db : Db) (userId : Nat) (action : String)
    (entityType : Option String) (entityId : Option Nat)
    (details : Option String) : Db :=
  { db with activity_logs :=
      db.activity_logs ++
        [{ user_id := some userId, action := action, entity_type := entityType,
           entity_id := entityId, details := details }] }

/-! ## Request bodies

One structure per entity, with exactly the fields the route destructures;
`none` is JavaScript `undefined` (field absent from the JSON body). -/

/-- Body of `POST`/`PUT /api/testimonials`. -/
structure TestimonialBody where
  client_name : Option String := none
  client_photo : Option String := none
  client_title : Option String := none
  content : Option String := none
  rating : Option Int := none
  is_approved : Option Bool := none
  sort_order : Option Int := none

/-- Body of `POST`/`PUT /api/blog`. -/
structure BlogPostBody where
  title : Option String := none
  slug : Option String := none
  excerpt : Option String := none
  content : Option String := none
  featured_image : Option String := none
  category : Option String := none
  tags : Option String := none
  status : Option String := none
  publish_date : Option Nat := none

/-- Body of `POST`/`PUT /api/pages`. -/
structure PageBody where
  title : Option String := none
  slug : Option String := none
  content : Option String := none
  meta_title : Option String := none
  meta_description : Option String := none
  meta_keywords : Option String := none
  is_published : Option Bool := none

/-- Body of `POST`/`PUT /api/gallery/albums`. -/
structure AlbumBody where
  name : Option String := none
  description : Option String := none
  cover_image : Option String := none
  is_active : Option Bool := none
  sort_order : Option Int := none

/-- Body of `POST`/`PUT /api/gallery/images`; the outer `Option` is
presence of the field, the inner one is an explicit JSON `null`. -/
structure ImageBody where
  album_id : Option (Option Nat) := none
  file_path : Option String := none
  thumbnail_path : Option String := none
  caption : Option String := none
  sort_order : Option Int := none

/-! ## Testimonial mutations (src/server/routes/testimonials.js) -/

/-- `POST /api/testimonials`: requires truthy `client_name` and `content`,
inserts with the route's defaults, journals one `create` row. -/
def createTestimonial (db : Db) (uid : Nat) (b : TestimonialBody) :
    Except ErrResp Testimonial × Db :=
  let clientName := b.client_name.getD ""
  let content := b.content.getD ""
  if clientName = "" ∨ content = "" then
    (.error ⟨400, "Client name and content are required"⟩, db)
  else
    let t : Testimonial :=
      { id := db.next_testimonial_id
        client_name := clientName
        client_photo := jsOrStr b.client_photo ""
        client_title := jsOrStr b.client_title ""
        content := content
        rating := jsOrInt b.rating 5
        is_approved := b.is_approved.getD false
        sort_order := jsOrInt b.sort_order 0
        created_at := 0 }
    let db1 := { db with testimonials := db.testimonials ++ [t],
                         next_testimonial_id := db.next_testimonial_id + 1 }
    let db2 := logActivity db1 uid "create" (some "testimonial") (some t.id)
      (some ("Created testimonial from: " ++ clientName))
    (.ok t, db2)

/-- `PUT /api/testimonials/:id`: partial update — `client_name` falls back
to the stored value when falsy (`||`), every other field only when the
field is absent (`!== undefined`); journals one `update` row. -/
def updateTestimonial (db : Db) (uid : Nat) (tid : Nat) (b : TestimonialBody) :
    Except ErrResp Testimonial × Db :=
  match db.testimonials.find? (·.id = tid) with
  | none => (.error ⟨404, "Testimonial not found"⟩, db)
  | some existing =>
    let t : Testimonial :=
      { id := existing.id
        client_name := jsOrStr b.client_name existing.client_name
        client_photo := b.client_photo.getD existing.client_photo
        client_title := b.client_title.getD existing.client_title
        content := b.content.getD existing.content
        rating := b.rating.getD existing.rating
        is_approved := b.is_approved.getD existing.is_approved
        sort_order := b.sort_order.getD existing.sort_order
        created_at := existing.created_at }
    let db1 := { db with testimonials :=
        db.testimonials.map (fun x => if x.id = tid then t else x) }
    let db2 := logActivity db1 uid "update" (some "testimonial") (some t.id)
      (some ("Updated testimonial from: " ++ t.client_name))
    (.ok t, db2)

/-- `DELETE /api/testimonials/:id`: hard delete, journals one `delete`
row; no other table is touched. -/
def deleteTestimonial (db : Db) (uid : Nat) (tid : Nat) :
    Except ErrResp String × Db :=
  match db.testimonials.find? (·.id = tid) with
  | none => (.error ⟨404, "Testimonial not found"⟩, db)
  | some t =>
    let db1 := { db with testimonials := db.testimonials.filter (·.id ≠ tid) }
    let db2 := logActivity db1 uid "delete" (some "testimonial") (some t.id)
      (some ("Deleted testimonial from: " ++ t.client_name))
    (.ok "Testimonial deleted successfully", db2)

/-! ## Blog post mutations (blog routes) -/

/-- `POST /api/blog`: requires truthy title and slug, rejects an existing
slug with `Slug already exists` before inserting, journals one `create`. -/
def createBlogPost (db : Db) (uid : Nat) (b : BlogPostBody) (now : Nat) :
    Except ErrResp BlogPost × Db :=
  let title := b.title.getD ""
  let slug := b.slug.getD ""
  if title = "" ∨ slug = "" then
    (.error ⟨400, "Title and slug are required"⟩, db)
  else if (db.blog_posts.find? (·.slug = slug)).isSome then
    (.error ⟨400, "Slug already exists"⟩, db)
  else
    let p : BlogPost :=
      { id := db.next_post_id
        title := title
        slug := slug
        excerpt := jsOrStr b.excerpt ""
        content := jsOrStr b.content ""
        featured_image := jsOrStr b.featured_image ""
        category := jsOrStr b.category ""
        tags := jsOrStr b.tags ""
        status := jsOrStr b.status "draft"
        publish_date := jsOrNat b.publish_date now
        author_id := uid
        created_at := now
        updated_at := now }
    let db1 := { db with blog_posts := db.blog_posts ++ [p],
                         next_post_id := db.next_post_id + 1 }
    let db2 := logActivity db1 uid "create" (some "blog_post") (some p.id)
      (some ("Created post: " ++ title))
    (.ok p, db2)

/-- The `UPDATE blog_posts SET ...` statement of `PUT /api/blog/:id` plus
its journal row, applied once the slug-conflict gate has passed. -/
def updateBlogPostRow (db : Db) (uid : Nat) (existing : BlogPost)
    (b : BlogPostBody) (now : Nat) : Except ErrResp BlogPost × Db :=
  let p : BlogPost :=
    { id := existing.id
      title := jsOrStr b.title existing.title
      slug := jsOrStr b.slug existing.slug
      excerpt := b.excerpt.getD existing.excerpt
      content := b.content.getD existing.content
      featured_image := b.featured_image.getD existing.featured_image
      category := b.category.getD existing.category
      tags := b.tags.getD existing.tags
      status := jsOrStr b.status existing.status
      publish_date := jsOrNat b.publish_date existing.publish_date
      author_id := existing.author_id
      created_at := existing.created_at
      updated_at := now }
  let db1 :=
    { db with blog_posts := db.blog_posts.map (fun x => if x.id = existing.id then p else x) }
  let db2 := logActivity db1 uid "update" (some "blog_post") (some p.id)
    (some ("Updated post: " ++ p.title))
  (.ok p, db2)

/-- `PUT /api/blog/:id`: when a truthy slug differing from the stored one
is supplied, any other row with that slug aborts the update with
`Slug already exists`; otherwise partial update (`||` on title, slug,
status, publish_date; `!== undefined` on the rest), `updated_at` is always
refreshed, and one `update` row is journalled. -/
def updateBlogPost (db : Db) (uid : Nat) (pid : Nat) (b : BlogPostBody)
    (now : Nat) : Except ErrResp BlogPost × Db :=
  match db.blog_posts.find? (·.id = pid) with
  | none => (.error ⟨404, "Post not found"⟩, db)
  | some existing =>
    match b.slug with
    | some s =>
      if s ≠ "" ∧ s ≠ existing.slug then
        if (db.blog_posts.find? (fun p => p.slug = s ∧ p.id ≠ pid)).isSome then
          (.error ⟨400, "Slug already exists"⟩, db)
        else updateBlogPostRow db uid existing b now
      else updateBlogPostRow db uid existing b now
    | none => updateBlogPostRow db uid existing b now

/-! ## Page mutations (pages routes) -/

/-- `POST /api/pages`: same required-field and slug-conflict discipline as
blog posts; `meta_title` defaults to the provided title. -/
def createPage (db : Db) (uid : Nat) (b : PageBody) (now : Nat) :
    Except ErrResp Page × Db :=
  let title := b.title.getD ""
  let slug := b.slug.getD ""
  if title = "" ∨ slug = "" then
    (.error ⟨400, "Title and slug are required"⟩, db)
  else if (db.pages.find? (·.slug = slug)).isSome then
    (.error ⟨400, "Slug already exists"⟩, db)
  else
    let p : Page :=
      { id := db.next_page_id
        title := title
        slug := slug
        content := jsOrStr b.content ""
        meta_title := jsOrStr b.meta_title title
        meta_description := jsOrStr b.meta_description ""
        meta_keywords := jsOrStr b.meta_keywords ""
        is_published := b.is_published.getD false
        created_at := now
        updated_at := now }
    let db1 := { db with pages := db.pages ++ [p],
                         next_page_id := db.next_page_id + 1 }
    let db2 := logActivity db1 uid "create" (some "page") (some p.id)
      (some ("Created page: " ++ title))
    (.ok p, db2)

/-- The `UPDATE pages SET ...` statement of `PUT /api/pages/:id` plus its
journal row, applied once the slug-conflict gate has passed. -/
def updatePageRow (db : Db) (uid : Nat) (existing : Page) (b : PageBody)
    (now : Nat) : Except ErrResp Page × Db :=
  let p : Page :=
    { id := existing.id
      title := jsOrStr b.title existing.title
      slug := jsOrStr b.slug existing.slug
      content := b.content.getD existing.content
      meta_title := jsOrStr b.meta_title existing.meta_title
      meta_description := b.meta_description.getD existing.meta_description
      meta_keywords := b.meta_keywords.getD existing.meta_keywords
      is_published := b.is_published.getD existing.is_published
      created_at := existing.created_at
      updated_at := now }
  let db1 :=
    { db with pages := db.pages.map (fun x => if x.id = existing.id then p else x) }
  let db2 := logActivity db1 uid "update" (some "page") (some p.id)
    (some ("Updated page: " ++ p.title))
  (.ok p, db2)

/-- `PUT /api/pages/:id`: slug-conflict check scoped to other rows, then
partial update with `updated_at` refreshed; one `update` journal row. -/
def updatePage (db : Db) (uid : Nat) (pid : Nat) (b : PageBody) (now : Nat) :
    Except ErrResp Page × Db :=
  match db.pages.find? (·.id = pid) with
  | none => (.error ⟨404, "Page not found"⟩, db)
  | some existing =>
    match b.slug with
    | some s =>
      if s ≠ "" ∧ s ≠ existing.slug then
        if (db.pages.find? (fun p => p.slug = s ∧ p.id ≠ pid)).isSome then
          (.error ⟨400, "Slug already exists"⟩, db)
        else updatePageRow db uid existing b now
      else updatePageRow db uid existing b now
    | none => updatePageRow db uid existing b now

/-! ## Gallery mutations (src/server/routes/gallery.js) -/

/-- `POST /api/gallery/albums`: requires a truthy name; `is_active` is not
in the insert column list, so the schema default `1` applies; one `create`
journal row. -/
def createAlbum (db : Db) (uid : Nat) (b : AlbumBody) :
    Except ErrResp Album × Db :=
  let name := b.name.getD ""
  if name = "" then (.error ⟨400, "Album name is required"⟩, db)
  else
    let a : Album :=
      { id := db.next_album_id
        name := name
        description := jsOrStr b.description ""
        cover_image := jsOrStr b.cover_image ""
        is_active := true
        sort_order := jsOrInt b.sort_order 0
        created_at := 0 }
    let db1 := { db with gallery_albums := db.gallery_albums ++ [a],
                         next_album_id := db.next_album_id + 1 }
    let db2 := logActivity db1 uid "create" (some "gallery_album") (some a.id)
      (some ("Created album: " ++ name))
    (.ok a, db2)

/-- `PUT /api/gallery/albums/:id`: partial update (`name` coalesced with
`||`, the rest with `!== undefined`); one `update` journal row. -/
def updateAlbum (db : Db) (uid : Nat) (aid : Nat) (b : AlbumBody) :
    Except ErrResp Album × Db :=
  match db.gallery_albums.find? (·.id = aid) with
  | none => (.error ⟨404, "Album not found"⟩, db)
  | some existing =>
    let a : Album :=
      { id := existing.id
        name := jsOrStr b.name existing.name
        description := b.description.getD existing.description
        cover_image := b.cover_image.getD existing.cover_image
        is_active := b.is_active.getD existing.is_active
        sort_order := b.sort_order.getD existing.sort_order
        created_at := existing.created_at }
    let db1 := { db with gallery_albums :=
        db.gallery_albums.map (fun x => if x.id = aid then a else x) }
    let db2 := logActivity db1 uid "update" (some "gallery_album") (some a.id)
      (some ("Updated album: " ++ a.name))
    (.ok a, db2)

/-- `DELETE /api/gallery/albums/:id`: the route deletes only the album row;
with `PRAGMA foreign_keys = ON` the schema's `ON DELETE CASCADE` on
`gallery_images.album_id` removes every child image in the same statement.
One `delete` journal row. -/
def deleteAlbum (db : Db) (uid : Nat) (aid : Nat) :
    Except ErrResp String × Db :=
  match db.gallery_albums.find? (·.id = aid) with
  | none => (.error ⟨404, "Album not found"⟩, db)
  | some a =>
    let db1 := { db with
        gallery_albums := db.gallery_albums.filter (·.id ≠ aid),
        gallery_images := db.gallery_images.filter (·.album_id ≠ some aid) }
    let db2 := logActivity db1 uid "delete" (some "gallery_album") (some a.id)
      (some ("Deleted album: " ++ a.name))
    (.ok "Album deleted successfully", db2)

/-- `POST /api/gallery/images`: requires a truthy `file_path`;
`album_id || null` turns a falsy album id into SQL `NULL`; one `create`
journal row. -/
def createImage (db : Db) (uid : Nat) (b : ImageBody) :
    Except ErrResp Image × Db :=
  let filePath := b.file_path.getD ""
  if filePath = "" then (.error ⟨400, "File path is required"⟩, db)
  else
    let albumId : Option Nat := match b.album_id with
      | some (some n) => if n = 0 then none else some n
      | _ => none
    let i : Image :=
      { id := db.next_image_id
        album_id := albumId
        file_path := filePath
        thumbnail_path := jsOrStr b.thumbnail_path ""
        caption := jsOrStr b.caption ""
        sort_order := jsOrInt b.sort_order 0
        created_at := 0 }
    let db1 := { db with gallery_images := db.gallery_images ++ [i],
                         next_image_id := db.next_image_id + 1 }
    let db2 := logActivity db1 uid "create" (some "gallery_image") (some i.id)
      (some "Added gallery image")
    (.ok i, db2)

/-- `PUT /api/gallery/images/:id`: partial update of `album_id`, `caption`
and `sort_order`; this route — alone among the mutating routes — never
calls `logActivity`, so no journal row is appended. -/
def updateImage (db : Db) (_uid : Nat) (iid : Nat) (b : ImageBody) :
    Except ErrResp Image × Db :=
  match db.gallery_images.find? (·.id = iid) with
  | none => (.error ⟨404, "Image not found"⟩, db)
  | some existing =>
    let i : Image :=
      { id := existing.id
        album_id := b.album_id.getD existing.album_id
        file_path := existing.file_path
        thumbnail_path := existing.thumbnail_path
        caption := b.caption.getD existing.caption
        sort_order := b.sort_order.getD existing.sort_order
        created_at := existing.created_at }
    let db1 := { db with gallery_images :=
        db.gallery_images.map (fun x => if x.id = iid then i else x) }
    (.ok i, db1)

/-- `DELETE /api/gallery/images/:id`: hard delete with one `delete`
journal row. -/
def deleteImage (db : Db) (uid : Nat) (iid : Nat) :
    Except ErrResp String × Db :=
  match db.gallery_images.find? (·.id = iid) with
  | none => (.error ⟨404, "Image not found"⟩, db)
  | some i =>
    let db1 := { db with gallery_images := db.gallery_images.filter (·.id ≠ iid) }
    let db2 := logActivity db1 uid "delete" (some "gallery_image") (some i.id)
      (some "Deleted gallery image")
    (.ok "Image deleted successfully", db2)

/-! ## JSON serialization of MembershipPlan.features

`JSON.stringify` on an array of strings and the corresponding fragment of
`JSON.parse`, character by character: `"` and `\` and the named control
characters get two-character escapes, the remaining control characters get
`\u00XX`, everything else is emitted verbatim. -/

/-- Lowercase hexadecimal digit, as `JSON.stringify` emits in `\u` escapes. -/
def hexDigit (n : Nat) : Char :=
  if n < 10 then Char.ofNat (48 + n) else Char.ofNat (87 + n)

/-- Value of one hexadecimal digit accepted by `JSON.parse`. -/
def hexVal (c : Char) : Option Nat :=
  if '0' ≤ c ∧ c ≤ '9' then some (c.toNat - 48)
  else if 'a' ≤ c ∧ c ≤ 'f' then some (c.toNat - 87)
  else if 'A' ≤ c ∧ c ≤ 'F' then some (c.toNat - 55)
  else none

/-- `JSON.stringify` escaping of one character inside a string literal. -/
def escapeChar (c : Char) : List Char :=
  if c = '"' then ['\\', '"']
  else if c = '\\' then ['\\', '\\']
  else if c = '\x08' then ['\\', 'b']
  else if c = '\x09' then ['\\', 't']
  else if c = '\x0a' then ['\\', 'n']
  else if c = '\x0c' then ['\\', 'f']
  else if c = '\x0d' then ['\\', 'r']
  else if c.toNat < 32 then
    ['\\', 'u', '0', '0', hexDigit (c.toNat / 16), hexDigit (c.toNat % 16)]
  else [c]

/-- `JSON.stringify` of one string: quoted, escaped content. -/
def encodeString (s : String) : List Char :=
  '"' :: (s.data.flatMap escapeChar ++ ['"'])

/-- The comma-joined encoded items of `JSON.stringify` on an array. -/
def encodeItems : List String → List Char
  | [] => []
  | [s] => encodeString s
  | s :: rest => encodeString s ++ ',' :: encodeItems rest

/-- `JSON.stringify` of an array of strings. -/
def stringifyFeatures (l : List String) : String :=
  String.mk ('[' :: (encodeItems l ++ [']']))

/-- Prepend a decoded character to a string-body parse result. -/
def consRes (c : Char) :
    Option (List Char × List Char) → Option (List Char × List Char) :=
  Option.map (fun p => (c :: p.1, p.2))

/-- `JSON.parse` of a string literal body: consumes characters up to and
including the closing quote, returning the decoded content and the rest of
the input.  Unescaped control characters and malformed escapes are
rejected, as `JSON.parse` rejects them. -/
def parseStringBody : List Char → Option (List Char × List Char)
  | [] => none
  | c :: rest =>
    if c = '"' then some ([], rest)
    else if c = '\\' then
      match rest with
      | [] => none
      | e :: rest2 =>
        if e = '"' then consRes '"' (parseStringBody rest2)
        else if e = '\\' then consRes '\\' (parseStringBody rest2)
        else if e = '/' then consRes '/' (parseStringBody rest2)
        else if e = 'b' then consRes '\x08' (parseStringBody rest2)
        else if e = 'f' then consRes '\x0c' (parseStringBody rest2)
        else if e = 'n' then consRes '\x0a' (parseStringBody rest2)
        else if e = 'r' then consRes '\x0d' (parseStringBody rest2)
        else if e = 't' then consRes '\x09' (parseStringBody rest2)
        else if e = 'u' then
          match rest2 with
          | h1 :: h2 :: h3 :: h4 :: rest3 =>
            match hexVal h1, hexVal h2, hexVal h3, hexVal h4 with
            | some a, some b, some c2, some d =>
              consRes (Char.ofNat (4096 * a + 256 * b + 16 * c2 + d))
                (parseStringBody rest3)
            | _, _, _, _ => none
          | _ => none
        else none
    else if c.toNat < 32 then none
    else consRes c (parseStringBody rest)

/-- `JSON.parse` of the comma-separated items of a nonempty array of
strings, ending exactly at the closing bracket; `fuel` bounds the number of
items and is a parsing-depth artifact of the embedding. -/
def parseItems : Nat → List Char → Option (List String)
  | 0, _ => none
  | fuel + 1, cs =>
    match cs with
    | [] => none
    | c :: rest =>
      if c = '"' then
        match parseStringBody rest with
        | none => none
        | some (s, rem) =>
          match rem with
          | [] => none
          | r :: rest2 =>
            if r = ',' then
              (parseItems fuel rest2).map (fun l => String.mk s :: l)
            else if r = ']' then
              if rest2 = [] then some [String.mk s] else none
            else none
      else none

/-- `JSON.parse` restricted to the texts this route stores for list input:
a JSON array of strings. -/
def parseFeatures (s : String) : Option (List String) :=
  match s.data with
  | [] => none
  | c :: rest =>
    if c = '[' then
      if rest = [']'] then some [] else parseItems rest.length rest
    else none

/-! ## Membership plan operations (membership routes) -/

/-- A plan as the API returns it: `features` deserialized to a list. -/
structure PlanOut where
  id : Nat
  name : String
  price : Int
  billing_period : String
  description : String
  features : List String
  is_featured : Bool
  is_active : Bool
  sort_order : Int
  created_at : Nat
  deriving DecidableEq

/-- Attach deserialized features to a stored plan row. -/
def planOut (p : Plan) (l : List String) : PlanOut :=
  { id := p.id, name := p.name, price := p.price,
    billing_period := p.billing_period, description := p.description,
    features := l, is_featured := p.is_featured, is_active := p.is_active,
    sort_order := p.sort_order, created_at := p.created_at }

/-- `plan.features ? JSON.parse(plan.features) : []`: a falsy stored text
yields `[]`, a parse failure propagates as the route's caught 500. -/
def parsePlanFeatures (p : Plan) : Option PlanOut :=
  if p.features = "" then some (planOut p [])
  else (parseFeatures p.features).map (planOut p)

/-- The `features` request field: either a native JSON array
(`Array.isArray` true) or an already-serialized string. -/
inductive FeaturesIn where
  | arr (l : List String)
  | raw (s : String)

/-- `Array.isArray(features) ? JSON.stringify(features) : features || '[]'`. -/
def featuresToJson : Option FeaturesIn → String
  | some (.arr l) => stringifyFeatures l
  | some (.raw s) => if s = "" then "[]" else s
  | none => "[]"

/-- Body of `POST`/`PUT /api/membership`. -/
structure PlanBody where
  name : Option String := none
  price : Option Int := none
  billing_period : Option String := none
  description : Option String := none
  features : Option FeaturesIn := none
  is_featured : Option Bool := none
  is_active : Option Bool := none
  sort_order : Option Int := none

/-- `GET /api/membership/:id`: plain lookup (no visibility check), then
features deserialization; a throwing `JSON.parse` is caught as a 500. -/
def getPlan (db : Db) (_isAdmin : Bool) (id : Nat) : Except ErrResp PlanOut :=
  match db.membership_plans.find? (·.id = id) with
  | none => .error ⟨404, "Plan not found"⟩
  | some p =>
    match parsePlanFeatures p with
    | some out => .ok out
    | none => .error ⟨500, "Failed to fetch plan"⟩

/-- Deserialize every row of a plan listing; one failure fails the batch,
as a throwing `JSON.parse` inside `rows.map` aborts the whole request. -/
def mapMOpt (f : α → Option β) : List α → Option (List β)
  | [] => some []
  | a :: t =>
    match f a, mapMOpt f t with
    | some b, some bs => some (b :: bs)
    | _, _ => none

/-- `GET /api/membership`: the visibility-filtered rows with features
deserialized; one unparseable row fails the whole request with the
caught 500. -/
def listPlans (db : Db) (isAdmin : Bool) : Except ErrResp (List PlanOut) :=
  match mapMOpt parsePlanFeatures (listPlansRaw db isAdmin) with
  | some outs => .ok outs
  | none => .error ⟨500, "Failed to fetch plans"⟩

/-- `POST /api/membership`: requires a truthy name and a present price
(`price === undefined` is the only rejected price); stores the serialized
features; journals one `create` row; responds with the re-selected row,
features deserialized. -/
def createPlan (db : Db) (uid : Nat) (b : PlanBody) :
    Except ErrResp PlanOut × Db :=
  let name := b.name.getD ""
  if name = "" ∨ b.price.isNone then
    (.error ⟨400, "Name and price are required"⟩, db)
  else
    let p : Plan :=
      { id := db.next_plan_id
        name := name
        price := b.price.getD 0
        billing_period := jsOrStr b.billing_period "month"
        description := jsOrStr b.description ""
        features := featuresToJson b.features
        is_featured := b.is_featured.getD false
        is_active := b.is_active.getD true
        sort_order := jsOrInt b.sort_order 0
        created_at := 0 }
    let db1 := { db with membership_plans := db.membership_plans ++ [p],
                         next_plan_id := db.next_plan_id + 1 }
    match parsePlanFeatures p with
    | some out =>
      let db2 := logActivity db1 uid "create" (some "membership_plan") (some p.id)
        (some ("Created plan: " ++ name))
      (.ok out, db2)
    | none => (.error ⟨500, "Failed to create plan"⟩, db1)

/-! ## Settings operations -/

/-- One `INSERT ... ON CONFLICT(key) DO UPDATE SET value = excluded.value`
statement (Express settings routes): replace the value in place on a key
conflict, otherwise insert a fresh `'string'`-typed row. -/
def upsertSetting (settings : List Setting) (k v : String) : List Setting :=
  if settings.any (·.key = k) then
    settings.map (fun s => if s.key = k then { s with value := v } else s)
  else settings ++ [{ key := k, value := v, stype := "string" }]

/-- The statements of the settings batch, in body-entry order. -/
def applyUpserts (settings : List Setting) (updates : List (String × String)) :
    List Setting :=
  updates.foldl (fun acc kv => upsertSetting acc kv.1 kv.2) settings

/-- One step of building a flattened lookup object by iterated assignment:
a matching element overwrites the accumulator. -/
def lookupStep (p : α → Bool) (f : α → β) (acc : Option β) (x : α) : Option β :=
  if p x then some (f x) else acc

/-- The flattened `key → value` object every settings read returns, queried
at one key: the rows are folded left to right exactly like the `forEach`
assignments, so the last row of a key wins. -/
def settingValue (settings : List Setting) (k : String) : Option String :=
  settings.foldl (lookupStep (·.key = k) (·.value)) none

/-- The value the last entry of the update mapping assigns to a key (the
later entry wins, as with object keys). -/
def lastVal (updates : List (String × String)) (k : String) : Option String :=
  updates.foldl (lookupStep (·.1 = k) (·.2)) none

/-- `PUT /api/settings` (Express): the whole batch of upserts runs inside
`db.transaction` (atomic — values were already stringified with `String()`
so no statement can fail mid-batch), then one `update` journal row, then
the flattened settings object is returned. -/
def bulkUpdateSettings (db : Db) (uid : Nat) (updates : List (String × String)) :
    Except ErrResp (List (String × String)) × Db :=
  let db1 := { db with settings := applyUpserts db.settings updates }
  let db2 := logActivity db1 uid "update" (some "settings") none
    (some ("Updated " ++ toString updates.length ++ " settings"))
  (.ok (db2.settings.map (fun s => (s.key, s.value))), db2)

/-- A JSON body value as the serverless settings handler passes it to the
database client: a string binds fine, any non-bindable value (object,
array, ...) makes `db.execute` reject. -/
inductive JsVal where
  | str (s : String)
  | obj

/-- serverless `INSERT OR REPLACE INTO settings (key, value)`: the
conflicting row is deleted and a fresh row (default type) appended. -/
def serverlessUpsert (settings : List Setting) (k v : String) : List Setting :=
  (settings.filter (·.key ≠ k)) ++ [{ key := k, value := v, stype := "string" }]

/-- The serverless handler's plain `for ... await db.execute` loop: runs
upserts one by one and stops at the first rejected statement, keeping
everything already written (no transaction). -/
def serverlessApply : List Setting → List (String × JsVal) → List Setting × Bool
  | settings, [] => (settings, true)
  | settings, (k, .str v) :: rest => serverlessApply (serverlessUpsert settings k v) rest
  | settings, (_, .obj) :: _ => (settings, false)

/-- serverless `PUT /api/settings` (src/unnamed/part_001): on a mid-loop
rejection the catch answers 500, but the earlier upserts stay applied. -/
def serverlessPutSettings (db : Db) (updates : List (String × JsVal)) :
    Except ErrResp String × Db :=
  let r := serverlessApply db.settings updates
  if r.2 then (.ok "Settings updated", { db with settings := r.1 })
  else (.error ⟨500, "Failed to update settings"⟩, { db with settings := r.1 })

/-! ## Login (src/server/routes/auth.js and src/api/auth/login.js) -/

/-- The user summary a successful login returns. -/
structure UserSummary where
  id : Nat
  email : String
  name : String
  role : String
  deriving DecidableEq

/-- `POST /api/auth/login` (Express): lowercased e-mail lookup, digest
check via the opaque `verify` collaborator, identical
`Invalid credentials` on both failure paths; only the success path stamps
`last_login` and journals the `login` row. -/
def loginExpress (db : Db) (email password : String)
    (verify : String → String → Bool) (now : Nat) :
    Except ErrResp UserSummary × Db :=
  if email = "" ∨ password = "" then
    (.error ⟨400, "Email and password are required"⟩, db)
  else
    match db.users.find? (·.email = lowerStr email) with
    | none => (.error ⟨401, "Invalid credentials"⟩, db)
    | some user =>
      if verify password user.password_hash then
        let stamp := fun (u : User) =>
          if u.id = user.id then { u with last_login := some now } else u
        let db1 := { db with users := db.users.map stamp }
        let db2 := logActivity db1 user.id "login" (some "user") (some user.id) none
        (.ok ⟨user.id, user.email, user.name, user.role⟩, db2)
      else (.error ⟨401, "Invalid credentials"⟩, db)

/-- serverless login handler: same two-failure structure with the same
message (no e-mail lowercasing, no activity journal in this deployment
shape); only the success path stamps `last_login`. -/
def loginServerless (db : Db) (email password : String)
    (verify : String → String → Bool) (now : Nat) :
    Except ErrResp UserSummary × Db :=
  if email = "" ∨ password = "" then
    (.error ⟨400, "Email and password required"⟩, db)
  else
    match db.users.find? (·.email = email) with
    | none => (.error ⟨401, "Invalid credentials"⟩, db)
    | some user =>
      if verify password user.password_hash then
        let stamp := fun (u : User) =>
          if u.id = user.id then { u with last_login := some now } else u
        let db1 := { db with users := db.users.map stamp }
        (.ok ⟨user.id, user.email, user.name, user.role⟩, db1)
      else (.error ⟨401, "Invalid credentials"⟩, db)

/-! ## General-purpose lemmas -/

theorem insertSorted_perm (le : α → α → Bool) (a : α) (l : List α) :
    List.Perm (insertSorted le a l) (a :: l) := by
  induction l with
  | nil => simp [insertSorted]
  | cons b t ih =>
    simp only [insertSorted]
    split
    · exact ((ih.cons b).trans (List.Perm.swap a b t))
    · exact List.Perm.refl _

/-- `sortBy` returns a permutation of its input: the model of `ORDER BY`
reorders rows but never adds or drops one. -/
theorem sortBy_perm (le : α → α → Bool) (l : List α) :
    List.Perm (sortBy le l) l := by
  induction l with
  | nil => exact List.Perm.refl _
  | cons a t ih =>
    exact (insertSorted_perm le a (sortBy le t)).trans (ih.cons a)

/-- A row-replacing `UPDATE ... WHERE id = ?` is the identity when the new
row equals the only row it can hit. -/
theorem map_ite_eq_self (l : List α) (p : α → Prop) [DecidablePred p] (e : α)
    (h : ∀ x ∈ l, p x → x = e) :
    l.map (fun x => if p x then e else x) = l := by
  induction l with
  | nil => rfl
  | cons a t ih =>
    simp only [List.map_cons]
    rw [ih (fun x hx hp => h x (List.mem_cons_of_mem _ hx) hp)]
    by_cases hp : p a
    · rw [if_pos hp, h a (List.mem_cons_self _ _) hp]
    · rw [if_neg hp]

/-- When every element maps to `some`, `mapMOpt` succeeds and the images of
members are members of the result. -/
theorem mapMOpt_mem (f : α → Option β) (l : List α)
    (h : ∀ x ∈ l, (f x).isSome = true) :
    ∃ ys, mapMOpt f l = some ys ∧ ∀ x ∈ l, ∀ y, f x = some y → y ∈ ys := by
  induction l with
  | nil => exact ⟨[], rfl, by simp⟩
  | cons a t ih =>
    obtain ⟨b, hb⟩ := Option.isSome_iff_exists.mp (h a (List.mem_cons_self _ _))
    obtain ⟨ys, hys, hmem⟩ := ih (fun x hx => h x (List.mem_cons_of_mem _ hx))
    refine ⟨b :: ys, by simp [mapMOpt, hb, hys], ?_⟩
    intro x hx y hy
    rcases List.mem_cons.mp hx with rfl | hx2
    · rw [hb] at hy
      injection hy with e
      exact e ▸ List.mem_cons_self _ _
    · exact List.mem_cons_of_mem _ (hmem x hx2 y hy)

/-- The accumulator of an iterated-assignment fold only shows through when
no later element matches. -/
theorem foldl_lookupStep_or (p : α → Bool) (f : α → β) (l : List α) :
    ∀ acc, l.foldl (lookupStep p f) acc = (l.foldl (lookupStep p f) none).or acc := by
  induction l with
  | nil => intro acc; simp
  | cons a t ih =>
    intro acc
    simp only [List.foldl_cons]
    rw [ih (lookupStep p f acc a), ih (lookupStep p f none a)]
    cases hfold : t.foldl (lookupStep p f) none with
    | some v => simp [Option.or]
    | none =>
      simp only [Option.or]
      unfold lookupStep
      by_cases hp : p a <;> simp [hp]

/-! ## Round trip of the features JSON codec -/

theorem mk_data (s : String) : String.mk s.data = s := rfl

theorem hexVal_hexDigit (m : Nat) (h : m < 16) : hexVal (hexDigit m) = some m := by
  interval_cases m <;> decide

/-- Decoding inverts `JSON.stringify` escaping: parsing the escaped content
followed by a closing quote recovers the characters and the leftover
input. -/
theorem parseStringBody_encode (cs : List Char) :
    ∀ rest : List Char,
      parseStringBody (cs.flatMap escapeChar ++ '"' :: rest) = some (cs, rest) := by
  induction cs with
  | nil =>
    intro rest
    rw [parseStringBody.eq_def]
    simp
  | cons c cs ih =>
    intro rest
    rw [List.flatMap_cons, List.append_assoc]
    by_cases h1 : c = '"'
    · subst h1
      rw [escapeChar, parseStringBody.eq_def]
      simp [consRes, ih]
    · by_cases h2 : c = '\\'
      · subst h2
        rw [escapeChar, parseStringBody.eq_def]
        simp [consRes, ih]
      · by_cases h3 : c = '\x08'
        · subst h3
          rw [escapeChar, parseStringBody.eq_def]
          simp [consRes, ih]
        · by_cases h4 : c = '\x09'
          · subst h4
            rw [escapeChar, parseStringBody.eq_def]
            simp [consRes, ih]
          · by_cases h5 : c = '\x0a'
            · subst h5
              rw [escapeChar, parseStringBody.eq_def]
              simp [consRes, ih]
            · by_cases h6 : c = '\x0c'
              · subst h6
                rw [escapeChar, parseStringBody.eq_def]
                simp [consRes, ih]
              · by_cases h7 : c = '\x0d'
                · subst h7
                  rw [escapeChar, parseStringBody.eq_def]
                  simp [consRes, ih]
                · by_cases h8 : c.toNat < 32
                  · have hdiv : c.toNat / 16 < 16 := by omega
                    have hmod : c.toNat % 16 < 16 := Nat.mod_lt _ (by norm_num)
                    rw [escapeChar]
                    simp only [h1, h2, h3, h4, h5, h6, h7, h8, if_true, if_false,
                      ite_true, ite_false, List.cons_append, List.nil_append]
                    rw [parseStringBody.eq_def]
                    simp only [reduceIte, reduceCtorEq,
                      show hexVal '0' = some 0 from by decide,
                      hexVal_hexDigit _ hdiv, hexVal_hexDigit _ hmod]
                    simp only [Nat.mul_zero, Nat.zero_add, Nat.div_add_mod]
                    simp [consRes, ih, Char.ofNat_toNat]
                  · rw [escapeChar]
                    simp only [h1, h2, h3, h4, h5, h6, h7, h8, if_true, if_false,
                      ite_true, ite_false, List.cons_append, List.nil_append]
                    rw [parseStringBody.eq_def]
                    simp [h1, h2, h8, consRes, ih]

theorem encodeString_length (s : String) : 2 ≤ (encodeString s).length := by
  simp only [encodeString, List.length_cons, List.length_append, List.length_singleton]
  omega

theorem encodeItems_cons_length (s : String) (l : List String) :
    2 ≤ (encodeItems (s :: l)).length := by
  cases l with
  | nil => simpa [encodeItems] using encodeString_length s
  | cons s2 t =>
    have := encodeString_length s
    simp only [encodeItems, List.length_append, List.length_cons]
    omega

theorem encodeItems_length_ge (l : List String) : l.length ≤ (encodeItems l).length := by
  induction l with
  | nil => simp [encodeItems]
  | cons s t ih =>
    cases t with
    | nil =>
      have := encodeString_length s
      simp only [encodeItems, List.length_singleton]
      omega
    | cons s2 t2 =>
      have := encodeString_length s
      simp only [encodeItems, List.length_append, List.length_cons] at *
      omega

/-- Decoding inverts the encoded item sequence: with enough fuel, parsing
the encoded items followed by the closing bracket recovers the strings. -/
theorem parseItems_encode (l : List String) :
    ∀ (s : String) (fuel : Nat), l.length < fuel →
      parseItems fuel (encodeItems (s :: l) ++ [']']) = some (s :: l) := by
  induction l with
  | nil =>
    intro s fuel hf
    obtain ⟨f, rfl⟩ : ∃ f, fuel = f + 1 := ⟨fuel - 1, by omega⟩
    show parseItems (f + 1) (encodeString s ++ [']']) = some [s]
    rw [encodeString, parseItems.eq_def]
    simp only [List.cons_append, List.append_assoc, List.singleton_append]
    simp [parseStringBody_encode, mk_data]
  | cons s2 t ih =>
    intro s fuel hf
    obtain ⟨f, rfl⟩ : ∃ f, fuel = f + 1 := ⟨fuel - 1, by omega⟩
    show parseItems (f + 1)
      ((encodeString s ++ ',' :: encodeItems (s2 :: t)) ++ [']']) = some (s :: s2 :: t)
    rw [encodeString, parseItems.eq_def]
    simp only [List.cons_append, List.append_assoc, List.singleton_append]
    have hrec := ih s2 f (by simpa using Nat.lt_of_succ_lt_succ hf)
    simp [parseStringBody_encode, hrec, mk_data]

/-- C9 core: `JSON.parse` inverts `JSON.stringify` on every array of
strings. -/
theorem parseFeatures_stringify (l : List String) :
    parseFeatures (stringifyFeatures l) = some l := by
  cases l with
  | nil => rfl
  | cons s t =>
    have h2 : 2 ≤ (encodeItems (s :: t)).length := encodeItems_cons_length s t
    have hne : ¬(encodeItems (s :: t) ++ [']'] = [']']) := by
      intro h
      have := congrArg List.length h
      simp only [List.length_append, List.length_singleton] at this
      omega
    have hfuel : (s :: t).length < (encodeItems (s :: t) ++ [']']).length := by
      have := encodeItems_length_ge (s :: t)
      simp only [List.length_append, List.length_singleton]
      omega
    show parseFeatures (String.mk ('[' :: (encodeItems (s :: t) ++ [']']))) = _
    rw [parseFeatures]
    simp only [mk_data]
    simp only [hne, if_false, ite_false, reduceIte, List.length_append,
      List.length_singleton]
    exact parseItems_encode t s _
      (by have := encodeItems_length_ge (s :: t); simp at this ⊢; omega)

/-! ## Settings upsert lemmas -/

theorem foldl_lookup_upsert_map (k v : String) (s : List Setting) :
    ∀ acc, ((s.map (fun x => if x.key = k then { x with value := v } else x)).foldl
        (lookupStep (·.key = k) (·.value)) acc)
      = if s.any (·.key = k) then some v else acc := by
  induction s with
  | nil => intro acc; simp
  | cons a t ih =>
    intro acc
    simp only [List.map_cons, List.foldl_cons, List.any_cons]
    rw [ih]
    by_cases ha : a.key = k <;>
      by_cases hta : (t.any fun x => decide (x.key = k)) = true <;>
        simp [lookupStep, ha, hta]

theorem foldl_lookup_upsert_map_other (k v k2 : String) (hk : k2 ≠ k)
    (s : List Setting) :
    ∀ acc, ((s.map (fun x => if x.key = k then { x with value := v } else x)).foldl
        (lookupStep (·.key = k2) (·.value)) acc)
      = s.foldl (lookupStep (·.key = k2) (·.value)) acc := by
  induction s with
  | nil => intro acc; simp
  | cons a t ih =>
    intro acc
    simp only [List.map_cons, List.foldl_cons]
    rw [ih]
    congr 1
    by_cases ha : a.key = k
    · have ha2 : ¬a.key = k2 := fun h => hk (h.symm.trans ha)
      have hk2 : ¬k = k2 := fun h => hk h.symm
      simp [lookupStep, ha, ha2, hk2]
    · simp [lookupStep, ha]

/-- An Express-style upsert of `k` makes the flattened object read `v`
at `k`. -/
theorem settingValue_upsert_self (s : List Setting) (k v : String) :
    settingValue (upsertSetting s k v) k = some v := by
  unfold upsertSetting settingValue
  by_cases h : s.any (·.key = k)
  · rw [if_pos h, foldl_lookup_upsert_map, if_pos h]
  · rw [if_neg h, List.foldl_append]
    simp [lookupStep]

/-- An Express-style upsert of `k` leaves the flattened object unchanged
at every other key. -/
theorem settingValue_upsert_other (s : List Setting) (k v k2 : String)
    (hk : k2 ≠ k) :
    settingValue (upsertSetting s k v) k2 = settingValue s k2 := by
  have hkk : ¬k = k2 := fun h => hk h.symm
  unfold upsertSetting settingValue
  by_cases h : s.any (·.key = k)
  · rw [if_pos h, foldl_lookup_upsert_map_other k v k2 hk]
  · rw [if_neg h, List.foldl_append]
    simp [lookupStep, hkk]

/-- A serverless `INSERT OR REPLACE` of `k` makes the flattened object read
`v` at `k`. -/
theorem settingValue_serverlessUpsert_self (s : List Setting) (k v : String) :
    settingValue (serverlessUpsert s k v) k = some v := by
  unfold serverlessUpsert settingValue
  rw [List.foldl_append]
  simp [lookupStep]

theorem foldl_lookup_filter_ne (k k2 : String) (hk : k2 ≠ k)
    (s : List Setting) :
    ∀ acc, ((s.filter (·.key ≠ k)).foldl (lookupStep (·.key = k2) (·.value)) acc)
      = s.foldl (lookupStep (·.key = k2) (·.value)) acc := by
  induction s with
  | nil => intro acc; rfl
  | cons a t ih =>
    intro acc
    rw [List.filter_cons]
    by_cases ha : a.key = k
    · have hd : ¬(decide (a.key ≠ k) = true) := by simp [ha]
      rw [if_neg hd, ih, List.foldl_cons]
      have ha2 : ¬a.key = k2 := fun h => hk (h.symm.trans ha)
      have hstep : lookupStep (fun x => decide (x.key = k2)) (fun x => x.value) acc a
          = acc := by simp [lookupStep, ha2]
      rw [hstep]
    · have hd : decide (a.key ≠ k) = true := by simp [ha]
      rw [if_pos hd, List.foldl_cons, List.foldl_cons, ih]

/-- A serverless `INSERT OR REPLACE` of `k` leaves the flattened object
unchanged at every other key. -/
theorem settingValue_serverlessUpsert_other (s : List Setting) (k v k2 : String)
    (hk : k2 ≠ k) :
    settingValue (serverlessUpsert s k v) k2 = settingValue s k2 := by
  have hkk : ¬k = k2 := fun h => hk h.symm
  unfold serverlessUpsert settingValue
  rw [List.foldl_append, foldl_lookup_filter_ne k k2 hk]
  simp [lookupStep, hkk]

/-- Read-back after the Express batch: a key in the mapping reads its last
assigned value, every other key keeps its previous value. -/
theorem settingValue_applyUpserts (k : String) (updates : List (String × String)) :
    ∀ s, settingValue (applyUpserts s updates) k
      = (lastVal updates k).or (settingValue s k) := by
  induction updates with
  | nil => intro s; simp [applyUpserts, lastVal]
  | cons u rest ih =>
    intro s
    have hstep : applyUpserts s (u :: rest) = applyUpserts (upsertSetting s u.1 u.2) rest := rfl
    rw [hstep, ih]
    have hlast : lastVal (u :: rest) k
        = (lastVal rest k).or (lookupStep (fun p => p.1 = k) (fun p => p.2) none u) := by
      unfold lastVal
      rw [List.foldl_cons, foldl_lookupStep_or]
    rw [hlast, Option.or_assoc]
    congr 1
    by_cases hu : u.1 = k
    · subst hu
      rw [settingValue_upsert_self]
      simp [lookupStep]
    · rw [settingValue_upsert_other s u.1 u.2 k (fun h => hu h.symm)]
      simp [lookupStep, hu]

/-- The serverless loop on an all-string batch runs to completion,
applying every upsert in order. -/
theorem serverlessApply_str (updates : List (String × String)) :
    ∀ s, serverlessApply s (updates.map (fun p => (p.1, JsVal.str p.2)))
      = (updates.foldl (fun acc p => serverlessUpsert acc p.1 p.2) s, true) := by
  induction updates with
  | nil => intro s; rfl
  | cons u rest ih => intro s; simpa [serverlessApply] using ih (serverlessUpsert s u.1 u.2)

/-- Read-back after a fully successful serverless batch. -/
theorem settingValue_serverlessFold (k : String) (updates : List (String × String)) :
    ∀ s, settingValue (updates.foldl (fun acc p => serverlessUpsert acc p.1 p.2) s) k
      = (lastVal updates k).or (settingValue s k) := by
  induction updates with
  | nil => intro s; simp [lastVal]
  | cons u rest ih =>
    intro s
    rw [List.foldl_cons, ih]
    have hlast : lastVal (u :: rest) k
        = (lastVal rest k).or (lookupStep (fun p => p.1 = k) (fun p => p.2) none u) := by
      unfold lastVal
      rw [List.foldl_cons, foldl_lookupStep_or]
    rw [hlast, Option.or_assoc]
    congr 1
    by_cases hu : u.1 = k
    · subst hu
      rw [settingValue_serverlessUpsert_self]
      simp [lookupStep]
    · rw [settingValue_serverlessUpsert_other s u.1 u.2 k (fun h => hu h.symm)]
      simp [lookupStep, hu]

/-! ## Sample database used by witnesses and counterexamples -/

/-- An approved testimonial. -/
def tAlice : Testimonial :=
  { id := 1, client_name := "Alice", client_photo := "", client_title := "",
    content := "Great gym", rating := 5, is_approved := true, sort_order := 0,
    created_at := 1 }

/-- An unapproved testimonial. -/
def tBob : Testimonial :=
  { id := 2, client_name := "Bob", client_photo := "", client_title := "",
    content := "Nice", rating := 4, is_approved := false, sort_order := 0,
    created_at := 2 }

/-- An active gallery album. -/
def albumOpen : Album :=
  { id := 1, name := "Open", description := "", cover_image := "",
    is_active := true, sort_order := 0, created_at := 1 }

/-- An inactive gallery album. -/
def albumHidden : Album :=
  { id := 2, name := "Hidden Album", description := "", cover_image := "",
    is_active := false, sort_order := 0, created_at := 2 }

/-- An image of the active album. -/
def imgOne : Image :=
  { id := 1, album_id := some 1, file_path := "/a.jpg", thumbnail_path := "",
    caption := "", sort_order := 0, created_at := 1 }

/-- An image of the inactive album. -/
def imgTwo : Image :=
  { id := 2, album_id := some 2, file_path := "/b.jpg", thumbnail_path := "",
    caption := "", sort_order := 0, created_at := 2 }

/-- An orphaned image (`album_id` NULL). -/
def imgOrphan : Image :=
  { id := 3, album_id := none, file_path := "/c.jpg", thumbnail_path := "",
    caption := "", sort_order := 0, created_at := 3 }

/-- The seeded admin user; the digest is opaque. -/
def adminUser : User :=
  { id := 1, email := "admin@powerhousegym.com", password_hash := "digest1",
    name := "Admin", role := "super_admin", created_at := 0, last_login := none }

/-- A published page. -/
def pageHome : Page :=
  { id := 1, title := "Home", slug := "home", content := "c",
    meta_title := "Home", meta_description := "", meta_keywords := "",
    is_published := true, created_at := 5, updated_at := 5 }

/-- An unpublished page. -/
def pageDraft : Page :=
  { id := 2, title := "Hidden", slug := "hidden", content := "d",
    meta_title := "Hidden", meta_description := "", meta_keywords := "",
    is_published := false, created_at := 6, updated_at := 6 }

/-- A draft blog post. -/
def postDraft : BlogPost :=
  { id := 1, title := "Draft post", slug := "draft-post", excerpt := "",
    content := "", featured_image := "", category := "", tags := "",
    status := "draft", publish_date := 10, author_id := 1, created_at := 10,
    updated_at := 10 }

/-- A published blog post. -/
def postPub : BlogPost :=
  { id := 2, title := "Pub post", slug := "pub-post", excerpt := "",
    content := "", featured_image := "", category := "", tags := "",
    status := "published", publish_date := 5, author_id := 1, created_at := 5,
    updated_at := 5 }

/-- An active trainer. -/
def trainerTina : Trainer :=
  { id := 1, name := "Tina", specialty := "", bio := "", photo := "",
    email := "", phone := "", social_facebook := "", social_instagram := "",
    social_twitter := "", certifications := "", is_active := true,
    sort_order := 0, created_at := 1 }

/-- An inactive trainer. -/
def trainerTed : Trainer :=
  { id := 2, name := "Ted", specialty := "", bio := "", photo := "",
    email := "", phone := "", social_facebook := "", social_instagram := "",
    social_twitter := "", certifications := "", is_active := false,
    sort_order := 0, created_at := 2 }

/-- A small concrete store exercising every flag combination. -/
def sampleDb : Db :=
  { users := [adminUser]
    pages := [pageHome, pageDraft]
    blog_posts := [postDraft, postPub]
    trainers := [trainerTina, trainerTed]
    classes := []
    membership_plans := []
    testimonials := [tAlice, tBob]
    gallery_albums := [albumOpen, albumHidden]
    gallery_images := [imgOne, imgTwo, imgOrphan]
    settings := [{ key := "a", value := "0", stype := "string" },
                 { key := "b", value := "0", stype := "string" }]
    activity_logs := []
    next_page_id := 3
    next_post_id := 3
    next_plan_id := 1
    next_testimonial_id := 3
    next_album_id := 3
    next_image_id := 4 }

/-- A store with no plans, for the membership-plan creation scenario. -/
def emptyPlansDb : Db :=
  { sampleDb with membership_plans := [], next_plan_id := 1 }

/-! ## Claims -/

/-- Rows with their trainer join stripped project back to the class table. -/
theorem sortBy_map_fst_perm {α β : Type} (le : (α × β) → (α × β) → Bool)
    (f : α → α × β) (hf : ∀ a, (f a).1 = a) (l : List α) :
    List.Perm ((sortBy le (l.map f)).map Prod.fst) l := by
  refine ((sortBy_perm le _).map Prod.fst).trans ?_
  rw [List.map_map]
  have hfe : (Prod.fst ∘ f) = id := funext fun a => hf a
  rw [hfe, List.map_id]

/-- C1 (amended): for Testimonial, Trainer, MembershipPlan, Page and Class,
the unauthenticated list returns exactly the rows with the visibility flag
true and the authenticated list returns every row; the GalleryAlbum list,
however, filters on `is_active = 1` with no authenticated branch, so every
caller — authenticated or not — receives only the active albums. -/
theorem c1_visibility_lists (db : Db) :
    List.Perm (listTestimonials db false) (db.testimonials.filter (·.is_approved)) ∧
    List.Perm (listTestimonials db true) db.testimonials ∧
    List.Perm (listTrainers db false) (db.trainers.filter (·.is_active)) ∧
    List.Perm (listTrainers db true) db.trainers ∧
    List.Perm (listPlansRaw db false) (db.membership_plans.filter (·.is_active)) ∧
    List.Perm (listPlansRaw db true) db.membership_plans ∧
    List.Perm (listPages db false) (db.pages.filter (·.is_published)) ∧
    List.Perm (listPages db true) db.pages ∧
    List.Perm ((listClasses db false).map Prod.fst) (db.classes.filter (·.is_active)) ∧
    List.Perm ((listClasses db true).map Prod.fst) db.classes ∧
    List.Perm ((listAlbums db).map Prod.fst) (db.gallery_albums.filter (·.is_active)) := by
  refine ⟨?_, ?_, ?_, ?_, ?_, ?_, ?_, ?_, ?_, ?_, ?_⟩
  · exact sortBy_perm _ _
  · exact sortBy_perm _ _
  · exact sortBy_perm _ _
  · exact sortBy_perm _ _
  · exact sortBy_perm _ _
  · exact sortBy_perm _ _
  · exact sortBy_perm _ _
  · exact sortBy_perm _ _
  · exact sortBy_map_fst_perm _ _ (fun _ => rfl) _
  · exact sortBy_map_fst_perm _ _ (fun _ => rfl) _
  · exact sortBy_map_fst_perm _ _ (fun _ => rfl) _

/-- C1 counterexample: the store holds an inactive album, yet the album
list returns only the active one to every caller — an authenticated caller
does not receive the full set, contradicting the claim. -/
theorem c1_album_list_counterexample :
    (listAlbums sampleDb).map Prod.fst = [albumOpen] ∧
    albumHidden ∈ sampleDb.gallery_albums ∧
    albumHidden.is_active = false := by decide

/-- C2 (amended): only the Page and BlogPost single-item reads apply the
Visibility Policy (unauthenticated reads of an unpublished page, a
non-published post, or a future-dated post answer 404, authenticated reads
return the record); the Testimonial and Trainer single-item reads perform a
bare lookup and return the record to any caller regardless of the flag. -/
theorem c2_single_reads :
    (∀ (db : Db) (slug : String) (p : Page),
      db.pages.find? (·.slug = slug) = some p → p.is_published = false →
        getPage db false slug = .error ⟨404, "Page not found"⟩ ∧
        getPage db true slug = .ok p) ∧
    (∀ (db : Db) (slug : String) (post : BlogPost) (now : Nat),
      db.blog_posts.find? (·.slug = slug) = some post → post.status ≠ "published" →
        getBlogPost db false slug now = .error ⟨404, "Post not found"⟩ ∧
        getBlogPost db true slug now = .ok post) ∧
    (∀ (db : Db) (slug : String) (post : BlogPost) (now : Nat),
      db.blog_posts.find? (·.slug = slug) = some post → now < post.publish_date →
        getBlogPost db false slug now = .error ⟨404, "Post not found"⟩) ∧
    (∀ (db : Db) (id : Nat) (t : Testimonial) (isAdmin : Bool),
      db.testimonials.find? (·.id = id) = some t →
        getTestimonial db isAdmin id = .ok t) ∧
    (∀ (db : Db) (id : Nat) (t : Trainer) (isAdmin : Bool),
      db.trainers.find? (·.id = id) = some t →
        getTrainer db isAdmin id = .ok t) := by
  refine ⟨?_, ?_, ?_, ?_, ?_⟩
  · intro db slug p hfind hpub
    constructor
    · simp [getPage, hfind, hpub]
    · simp [getPage, hfind, hpub]
  · intro db slug post now hfind hstatus
    constructor
    · simp [getBlogPost, hfind, hstatus]
    · simp [getBlogPost, hfind]
  · intro db slug post now hfind hfuture
    simp [getBlogPost, hfind]
    omega
  · intro db id t isAdmin hfind
    simp [getTestimonial, hfind]
  · intro db id t isAdmin hfind
    simp [getTrainer, hfind]

/-- C2 witness at concrete inputs of the sample store. -/
theorem c2_single_reads_witness :
    (getPage sampleDb false "hidden" = .error ⟨404, "Page not found"⟩ ∧
      getPage sampleDb true "hidden" = .ok pageDraft) ∧
    (getBlogPost sampleDb false "draft-post" 20 = .error ⟨404, "Post not found"⟩ ∧
      getBlogPost sampleDb true "draft-post" 20 = .ok postDraft) :=
  ⟨c2_single_reads.1 sampleDb "hidden" pageDraft (by decide) (by decide),
   c2_single_reads.2.1 sampleDb "draft-post" postDraft 20 (by decide) (by decide)⟩

/-- C2 counterexample: an unauthenticated single-item read of the
unapproved testimonial returns the record, where the claim demands
NotFound. -/
theorem c2_get_counterexample :
    getTestimonial sampleDb false 2 = .ok tBob ∧ tBob.is_approved = false := by
  decide

/-- C3 (amended): `update(id, {})` leaves the testimonial row and table
unchanged, and a single provided field replaces exactly that field — except
that the falsy-coalesced fields ignore a falsy value (testimonial
`client_name` provided as `""` keeps the stored name), and a blog-post
update always refreshes `updated_at`, even with an empty body. -/
theorem c3_partial_update :
    (∀ (db : Db) (uid tid : Nat) (existing : Testimonial),
      db.testimonials.find? (·.id = tid) = some existing →
      (∀ x ∈ db.testimonials, x.id = tid → x = existing) →
        (updateTestimonial db uid tid {}).1 = .ok existing ∧
        ((updateTestimonial db uid tid {}).2).testimonials = db.testimonials) ∧
    (∀ (db : Db) (uid tid : Nat) (existing : Testimonial) (X : String),
      db.testimonials.find? (·.id = tid) = some existing →
        (updateTestimonial db uid tid { content := some X }).1
          = .ok { existing with content := X }) ∧
    (∀ (db : Db) (uid tid : Nat) (existing : Testimonial) (n : String),
      db.testimonials.find? (·.id = tid) = some existing → n ≠ "" →
        (updateTestimonial db uid tid { client_name := some n }).1
          = .ok { existing with client_name := n }) ∧
    (∀ (db : Db) (uid tid : Nat) (existing : Testimonial),
      db.testimonials.find? (·.id = tid) = some existing →
        (updateTestimonial db uid tid { client_name := some "" }).1
          = .ok existing) ∧
    (∀ (db : Db) (uid pid : Nat) (existing : BlogPost) (now : Nat),
      db.blog_posts.find? (·.id = pid) = some existing →
        (updateBlogPost db uid pid {} now).1
          = .ok { existing with updated_at := now }) := by
  refine ⟨?_, ?_, ?_, ?_, ?_⟩
  · intro db uid tid existing hfind huniq
    constructor
    · simp [updateTestimonial, hfind, jsOrStr]
    · simp only [updateTestimonial, hfind, logActivity]
      exact map_ite_eq_self db.testimonials (fun x => x.id = tid) existing huniq
  · intro db uid tid existing X hfind
    simp [updateTestimonial, hfind, jsOrStr]
  · intro db uid tid existing n hfind hn
    simp [updateTestimonial, hfind, jsOrStr, hn]
  · intro db uid tid existing hfind
    simp [updateTestimonial, hfind, jsOrStr]
  · intro db uid pid existing now hfind
    simp [updateBlogPost, hfind, updateBlogPostRow, jsOrStr, jsOrNat]

/-- C3 witness at concrete inputs of the sample store. -/
theorem c3_partial_update_witness :
    ((updateTestimonial sampleDb 1 2 {}).1 = .ok tBob ∧
      ((updateTestimonial sampleDb 1 2 {}).2).testimonials = sampleDb.testimonials) ∧
    (updateTestimonial sampleDb 1 2 { content := some "Changed" }).1
      = .ok { tBob with content := "Changed" } :=
  ⟨c3_partial_update.1 sampleDb 1 2 tBob (by decide) (by decide),
   c3_partial_update.2.1 sampleDb 1 2 tBob "Changed" (by decide)⟩

/-- C3 counterexample: updating the testimonial with
`{client_name: ""}` must, per the claim, store the empty name; the code
coalesces the falsy value and keeps `"Bob"`. -/
theorem c3_update_counterexample :
    ((updateTestimonial sampleDb 1 2 { client_name := some "" }).1).map
        (·.client_name) = .ok "Bob" ∧ ("Bob" : String) ≠ "" := by decide

/-- C4 (confirmed): for both slug-bearing entities, creating over an
existing slug answers `Slug already exists` and inserts nothing, updating
to another row's slug answers the same and changes nothing, and updating a
record while passing its own current slug succeeds. -/
theorem c4_slug_uniqueness :
    (∀ (db : Db) (uid : Nat) (b : BlogPostBody) (now : Nat) (s : String),
      b.title.getD "" ≠ "" → b.slug = some s → s ≠ "" →
      (db.blog_posts.find? (·.slug = s)).isSome = true →
        createBlogPost db uid b now = (.error ⟨400, "Slug already exists"⟩, db)) ∧
    (∀ (db : Db) (uid pid : Nat) (b : BlogPostBody) (now : Nat)
        (existing : BlogPost) (s : String),
      db.blog_posts.find? (·.id = pid) = some existing →
      b.slug = some s → s ≠ "" → s ≠ existing.slug →
      (db.blog_posts.find? (fun p => p.slug = s ∧ p.id ≠ pid)).isSome = true →
        updateBlogPost db uid pid b now = (.error ⟨400, "Slug already exists"⟩, db)) ∧
    (∀ (db : Db) (uid pid : Nat) (b : BlogPostBody) (now : Nat)
        (existing : BlogPost),
      db.blog_posts.find? (·.id = pid) = some existing →
      b.slug = some existing.slug →
        ∃ p, (updateBlogPost db uid pid b now).1 = .ok p ∧ p.slug = existing.slug) ∧
    (∀ (db : Db) (uid : Nat) (b : PageBody) (now : Nat) (s : String),
      b.title.getD "" ≠ "" → b.slug = some s → s ≠ "" →
      (db.pages.find? (·.slug = s)).isSome = true →
        createPage db uid b now = (.error ⟨400, "Slug already exists"⟩, db)) ∧
    (∀ (db : Db) (uid pid : Nat) (b : PageBody) (now : Nat)
        (existing : Page) (s : String),
      db.pages.find? (·.id = pid) = some existing →
      b.slug = some s → s ≠ "" → s ≠ existing.slug →
      (db.pages.find? (fun p => p.slug = s ∧ p.id ≠ pid)).isSome = true →
        updatePage db uid pid b now = (.error ⟨400, "Slug already exists"⟩, db)) ∧
    (∀ (db : Db) (uid pid : Nat) (b : PageBody) (now : Nat) (existing : Page),
      db.pages.find? (·.id = pid) = some existing →
      b.slug = some existing.slug →
        ∃ p, (updatePage db uid pid b now).1 = .ok p ∧ p.slug = existing.slug) := by
  refine ⟨?_, ?_, ?_, ?_, ?_, ?_⟩
  · intro db uid b now s ht hs hne hfound
    simp [createBlogPost, hs, ht, hne, hfound]
  · intro db uid pid b now existing s hfind hs hne hdiff hconf
    simp only [updateBlogPost, hfind, hs]
    rw [if_pos ⟨hne, hdiff⟩, if_pos hconf]
  · intro db uid pid b now existing hfind hs
    simp only [updateBlogPost, hfind, hs]
    rw [if_neg (by simp)]
    refine ⟨_, rfl, ?_⟩
    show jsOrStr b.slug existing.slug = existing.slug
    rw [hs]
    simp [jsOrStr]
  · intro db uid b now s ht hs hne hfound
    simp [createPage, hs, ht, hne, hfound]
  · intro db uid pid b now existing s hfind hs hne hdiff hconf
    simp only [updatePage, hfind, hs]
    rw [if_pos ⟨hne, hdiff⟩, if_pos hconf]
  · intro db uid pid b now existing hfind hs
    simp only [updatePage, hfind, hs]
    rw [if_neg (by simp)]
    refine ⟨_, rfl, ?_⟩
    show jsOrStr b.slug existing.slug = existing.slug
    rw [hs]
    simp [jsOrStr]

/-- C4 witness at concrete inputs of the sample store. -/
theorem c4_slug_uniqueness_witness :
    createBlogPost sampleDb 1 { title := some "Again", slug := some "pub-post" } 30
      = (.error ⟨400, "Slug already exists"⟩, sampleDb) ∧
    updateBlogPost sampleDb 1 1 { slug := some "pub-post" } 30
      = (.error ⟨400, "Slug already exists"⟩, sampleDb) ∧
    (∃ p, (updateBlogPost sampleDb 1 1 { slug := some "draft-post" } 30).1 = .ok p ∧
      p.slug = "draft-post") :=
  ⟨c4_slug_uniqueness.1 sampleDb 1 { title := some "Again", slug := some "pub-post" } 30
      "pub-post" (by decide) rfl (by decide) (by decide),
   c4_slug_uniqueness.2.1 sampleDb 1 1 { slug := some "pub-post" } 30 postDraft
      "pub-post" (by decide) rfl (by decide) (by decide) (by decide),
   c4_slug_uniqueness.2.2.1 sampleDb 1 1 { slug := some "draft-post" } 30 postDraft
      (by decide) rfl⟩

/-- C5 (confirmed): deleting an album removes the album row and exactly the
images whose `album_id` references it (the storage layer's cascade), and
touches no other table; deleting a testimonial touches only the
testimonials table. -/
theorem c5_album_cascade :
    (∀ (db : Db) (uid aid : Nat) (a : Album),
      db.gallery_albums.find? (·.id = aid) = some a →
        (∃ m, (deleteAlbum db uid aid).1 = .ok m) ∧
        ((deleteAlbum db uid aid).2).gallery_albums
          = db.gallery_albums.filter (·.id ≠ aid) ∧
        ((deleteAlbum db uid aid).2).gallery_images
          = db.gallery_images.filter (·.album_id ≠ some aid) ∧
        ((deleteAlbum db uid aid).2).testimonials = db.testimonials ∧
        ((deleteAlbum db uid aid).2).trainers = db.trainers ∧
        ((deleteAlbum db uid aid).2).pages = db.pages ∧
        ((deleteAlbum db uid aid).2).blog_posts = db.blog_posts ∧
        ((deleteAlbum db uid aid).2).classes = db.classes ∧
        ((deleteAlbum db uid aid).2).membership_plans = db.membership_plans ∧
        ((deleteAlbum db uid aid).2).settings = db.settings ∧
        ((deleteAlbum db uid aid).2).users = db.users) ∧
    (∀ (db : Db) (uid tid : Nat) (t : Testimonial),
      db.testimonials.find? (·.id = tid) = some t →
        ((deleteTestimonial db uid tid).2).testimonials
          = db.testimonials.filter (·.id ≠ tid) ∧
        ((deleteTestimonial db uid tid).2).gallery_albums = db.gallery_albums ∧
        ((deleteTestimonial db uid tid).2).gallery_images = db.gallery_images ∧
        ((deleteTestimonial db uid tid).2).pages = db.pages ∧
        ((deleteTestimonial db uid tid).2).blog_posts = db.blog_posts ∧
        ((deleteTestimonial db uid tid).2).trainers = db.trainers ∧
        ((deleteTestimonial db uid tid).2).classes = db.classes ∧
        ((deleteTestimonial db uid tid).2).membership_plans = db.membership_plans ∧
        ((deleteTestimonial db uid tid).2).settings = db.settings ∧
        ((deleteTestimonial db uid tid).2).users = db.users) := by
  constructor
  · intro db uid aid a hfind
    refine ⟨⟨"Album deleted successfully", ?_⟩, ?_⟩
    · simp [deleteAlbum, hfind, logActivity]
    · simp [deleteAlbum, hfind, logActivity]
  · intro db uid tid t hfind
    simp [deleteTestimonial, hfind, logActivity]

/-- C5 witness: deleting the inactive album of the sample store removes it
and its one image while the orphan image, the other album, and every other
table survive. -/
theorem c5_album_cascade_witness :
    ((deleteAlbum sampleDb 1 2).2).gallery_albums = [albumOpen] ∧
    ((deleteAlbum sampleDb 1 2).2).gallery_images = [imgOne, imgOrphan] ∧
    ((deleteAlbum sampleDb 1 2).2).testimonials = sampleDb.testimonials := by
  have h := (c5_album_cascade.1 sampleDb 1 2 albumHidden (by decide))
  refine ⟨?_, ?_, h.2.2.2.1⟩
  · rw [h.2.1]; decide
  · rw [h.2.2.1]; decide

/-- C6 (amended): every modelled successful create, update or delete
journals exactly one ActivityLog row whose `action` and `entity_type` match
the mutation — with one exception: the gallery-image update succeeds
without appending any journal row. -/
theorem c6_journal :
    (∀ (db : Db) (uid : Nat) (b : TestimonialBody),
      b.client_name.getD "" ≠ "" → b.content.getD "" ≠ "" →
        ∃ e, ((createTestimonial db uid b).2).activity_logs
            = db.activity_logs ++ [e] ∧
          e.action = "create" ∧ e.entity_type = some "testimonial") ∧
    (∀ (db : Db) (uid tid : Nat) (b : TestimonialBody) (existing : Testimonial),
      db.testimonials.find? (·.id = tid) = some existing →
        ∃ e, ((updateTestimonial db uid tid b).2).activity_logs
            = db.activity_logs ++ [e] ∧
          e.action = "update" ∧ e.entity_type = some "testimonial") ∧
    (∀ (db : Db) (uid tid : Nat) (t : Testimonial),
      db.testimonials.find? (·.id = tid) = some t →
        ∃ e, ((deleteTestimonial db uid tid).2).activity_logs
            = db.activity_logs ++ [e] ∧
          e.action = "delete" ∧ e.entity_type = some "testimonial") ∧
    (∀ (db : Db) (uid : Nat) (b : AlbumBody), b.name.getD "" ≠ "" →
        ∃ e, ((createAlbum db uid b).2).activity_logs = db.activity_logs ++ [e] ∧
          e.action = "create" ∧ e.entity_type = some "gallery_album") ∧
    (∀ (db : Db) (uid aid : Nat) (b : AlbumBody) (existing : Album),
      db.gallery_albums.find? (·.id = aid) = some existing →
        ∃ e, ((updateAlbum db uid aid b).2).activity_logs = db.activity_logs ++ [e] ∧
          e.action = "update" ∧ e.entity_type = some "gallery_album") ∧
    (∀ (db : Db) (uid aid : Nat) (a : Album),
      db.gallery_albums.find? (·.id = aid) = some a →
        ∃ e, ((deleteAlbum db uid aid).2).activity_logs = db.activity_logs ++ [e] ∧
          e.action = "delete" ∧ e.entity_type = some "gallery_album") ∧
    (∀ (db : Db) (uid : Nat) (b : ImageBody), b.file_path.getD "" ≠ "" →
        ∃ e, ((createImage db uid b).2).activity_logs = db.activity_logs ++ [e] ∧
          e.action = "create" ∧ e.entity_type = some "gallery_image") ∧
    (∀ (db : Db) (uid iid : Nat) (i : Image),
      db.gallery_images.find? (·.id = iid) = some i →
        ∃ e, ((deleteImage db uid iid).2).activity_logs = db.activity_logs ++ [e] ∧
          e.action = "delete" ∧ e.entity_type = some "gallery_image") ∧
    (∀ (db : Db) (uid : Nat) (b : BlogPostBody) (now : Nat),
      b.title.getD "" ≠ "" → b.slug.getD "" ≠ "" →
      db.blog_posts.find? (·.slug = b.slug.getD "") = none →
        ∃ e, ((createBlogPost db uid b now).2).activity_logs
            = db.activity_logs ++ [e] ∧
          e.action = "create" ∧ e.entity_type = some "blog_post") ∧
    (∀ (db : Db) (uid pid : Nat) (existing : BlogPost) (now : Nat),
      db.blog_posts.find? (·.id = pid) = some existing →
        ∃ e, ((updateBlogPost db uid pid {} now).2).activity_logs
            = db.activity_logs ++ [e] ∧
          e.action = "update" ∧ e.entity_type = some "blog_post") ∧
    (∀ (db : Db) (uid iid : Nat) (b : ImageBody) (existing : Image),
      db.gallery_images.find? (·.id = iid) = some existing →
        (∃ i, (updateImage db uid iid b).1 = .ok i) ∧
        ((updateImage db uid iid b).2).activity_logs = db.activity_logs) := by
  refine ⟨?_, ?_, ?_, ?_, ?_, ?_, ?_, ?_, ?_, ?_, ?_⟩
  · intro db uid b h1 h2
    simp only [createTestimonial]
    rw [if_neg (by simp [h1, h2])]
    exact ⟨_, rfl, rfl, rfl⟩
  · intro db uid tid b existing hfind
    simp only [updateTestimonial, hfind]
    exact ⟨_, rfl, rfl, rfl⟩
  · intro db uid tid t hfind
    simp only [deleteTestimonial, hfind]
    exact ⟨_, rfl, rfl, rfl⟩
  · intro db uid b h1
    simp only [createAlbum]
    rw [if_neg (by simp [h1])]
    exact ⟨_, rfl, rfl, rfl⟩
  · intro db uid aid b existing hfind
    simp only [updateAlbum, hfind]
    exact ⟨_, rfl, rfl, rfl⟩
  · intro db uid aid a hfind
    simp only [deleteAlbum, hfind]
    exact ⟨_, rfl, rfl, rfl⟩
  · intro db uid b h1
    simp only [createImage]
    rw [if_neg (by simp [h1])]
    exact ⟨_, rfl, rfl, rfl⟩
  · intro db uid iid i hfind
    simp only [deleteImage, hfind]
    exact ⟨_, rfl, rfl, rfl⟩
  · intro db uid b now h1 h2 hnone
    simp only [createBlogPost, hnone]
    rw [if_neg (by simp [h1, h2]), if_neg (by simp)]
    exact ⟨_, rfl, rfl, rfl⟩
  · intro db uid pid existing now hfind
    simp only [updateBlogPost, hfind]
    exact ⟨_, rfl, rfl, rfl⟩
  · intro db uid iid b existing hfind
    constructor
    · simp only [updateImage, hfind]
      exact ⟨_, rfl⟩
    · simp only [updateImage, hfind]

/-- C6 witness at concrete inputs of the sample store. -/
theorem c6_journal_witness :
    ∃ e, ((createTestimonial sampleDb 1
        { client_name := some "Cara", content := some "Fine" }).2).activity_logs
      = sampleDb.activity_logs ++ [e] ∧
      e.action = "create" ∧ e.entity_type = some "testimonial" :=
  c6_journal.1 sampleDb 1 { client_name := some "Cara", content := some "Fine" }
    (by decide) (by decide)

/-- C6 counterexample: the gallery-image update succeeds, yet the journal
is left untouched — zero rows appended instead of one. -/
theorem c6_image_update_counterexample :
    ((updateImage sampleDb 1 1 { caption := some "new" }).1).isOk = true ∧
    ((updateImage sampleDb 1 1 { caption := some "new" }).2).activity_logs
      = sampleDb.activity_logs := by decide

/-- C7 (amended): the Express settings bulk update (one transaction) gives
each key of the mapping its last assigned value and leaves every other key
unchanged; the serverless handler gives the same read-back when every
upsert succeeds, but runs without a transaction, so a batch that fails
midway keeps the earlier upserts (see the counterexample). -/
theorem c7_settings_bulk :
    (∀ (db : Db) (uid : Nat) (updates : List (String × String)) (k : String),
      (bulkUpdateSettings db uid updates).1.isOk = true ∧
      settingValue ((bulkUpdateSettings db uid updates).2).settings k
        = (lastVal updates k).or (settingValue db.settings k)) ∧
    (∀ (db : Db) (updates : List (String × String)) (k : String),
      (serverlessPutSettings db (updates.map (fun p => (p.1, JsVal.str p.2)))).1.isOk
        = true ∧
      settingValue
          ((serverlessPutSettings db (updates.map (fun p => (p.1, JsVal.str p.2)))).2).settings k
        = (lastVal updates k).or (settingValue db.settings k)) := by
  constructor
  · intro db uid updates k
    refine ⟨rfl, ?_⟩
    show settingValue (applyUpserts db.settings updates) k = _
    exact settingValue_applyUpserts k updates db.settings
  · intro db updates k
    constructor
    · simp [serverlessPutSettings, serverlessApply_str, Except.isOk, Except.toBool]
    · simp only [serverlessPutSettings, serverlessApply_str]
      exact settingValue_serverlessFold k updates db.settings

/-- C7 counterexample: a serverless batch whose second value cannot be
bound fails with the caught 500, yet the first upsert stays applied — not
"all upserts succeed or none do". -/
theorem c7_serverless_counterexample :
    (serverlessPutSettings sampleDb [("a", JsVal.str "1"), ("b", JsVal.obj)]).1
      = .error ⟨500, "Failed to update settings"⟩ ∧
    settingValue
        ((serverlessPutSettings sampleDb [("a", JsVal.str "1"), ("b", JsVal.obj)]).2).settings
        "a" = some "1" ∧
    settingValue sampleDb.settings "a" = some "0" := by decide

/-- C8 (confirmed): in both deployment shapes, a login whose e-mail matches
no user and a login whose digest check fails produce the same 401 response
with the identical `Invalid credentials` message. -/
theorem c8_login_indistinguishable :
    (∀ (db : Db) (verify : String → String → Bool) (now : Nat)
        (e1 p1 e2 p2 : String) (u : User),
      e1 ≠ "" → p1 ≠ "" → e2 ≠ "" → p2 ≠ "" →
      db.users.find? (·.email = lowerStr e1) = none →
      db.users.find? (·.email = lowerStr e2) = some u →
      verify p2 u.password_hash = false →
        (loginExpress db e1 p1 verify now).1 = .error ⟨401, "Invalid credentials"⟩ ∧
        (loginExpress db e2 p2 verify now).1 = .error ⟨401, "Invalid credentials"⟩) ∧
    (∀ (db : Db) (verify : String → String → Bool) (now : Nat)
        (e1 p1 e2 p2 : String) (u : User),
      e1 ≠ "" → p1 ≠ "" → e2 ≠ "" → p2 ≠ "" →
      db.users.find? (·.email = e1) = none →
      db.users.find? (·.email = e2) = some u →
      verify p2 u.password_hash = false →
        (loginServerless db e1 p1 verify now).1 = .error ⟨401, "Invalid credentials"⟩ ∧
        (loginServerless db e2 p2 verify now).1 = .error ⟨401, "Invalid credentials"⟩) := by
  constructor
  · intro db verify now e1 p1 e2 p2 u hne1 hnp1 hne2 hnp2 hmiss hhit hbad
    constructor
    · simp [loginExpress, hne1, hnp1, hmiss]
    · simp [loginExpress, hne2, hnp2, hhit, hbad]
  · intro db verify now e1 p1 e2 p2 u hne1 hnp1 hne2 hnp2 hmiss hhit hbad
    constructor
    · simp [loginServerless, hne1, hnp1, hmiss]
    · simp [loginServerless, hne2, hnp2, hhit, hbad]

/-- C8 witness: a ghost e-mail and the admin e-mail with a failing digest
produce byte-identical failures. -/
theorem c8_login_indistinguishable_witness :
    (loginExpress sampleDb "ghost@x.com" "pw" (fun _ _ => false) 7).1
      = .error ⟨401, "Invalid credentials"⟩ ∧
    (loginExpress sampleDb "Admin@powerhousegym.com" "pw" (fun _ _ => false) 7).1
      = .error ⟨401, "Invalid credentials"⟩ :=
  c8_login_indistinguishable.1 sampleDb (fun _ _ => false) 7
    "ghost@x.com" "pw" "Admin@powerhousegym.com" "pw" adminUser
    (by decide) (by decide) (by decide) (by decide) (by decide) (by decide) rfl

/-- C10 (confirmed): whenever login fails — unknown e-mail, failing digest
check, or a missing field — the store is returned unchanged (no
`last_login` stamp, no journal row), in both deployment shapes; and on the
Express success path the journal gains exactly the one `login` row. -/
theorem c10_login_failure_pure :
    (∀ (db : Db) (verify : String → String → Bool) (now : Nat)
        (email password : String),
      (∀ u, db.users.find? (·.email = lowerStr email) = some u →
        verify password u.password_hash = false) →
      (loginExpress db email password verify now).2 = db) ∧
    (∀ (db : Db) (verify : String → String → Bool) (now : Nat)
        (email password : String),
      (∀ u, db.users.find? (·.email = email) = some u →
        verify password u.password_hash = false) →
      (loginServerless db email password verify now).2 = db) ∧
    (∀ (db : Db) (verify : String → String → Bool) (now : Nat)
        (email password : String) (u : User),
      email ≠ "" → password ≠ "" →
      db.users.find? (·.email = lowerStr email) = some u →
      verify password u.password_hash = true →
        ((loginExpress db email password verify now).2).activity_logs
          = db.activity_logs
            ++ [{ user_id := some u.id, action := "login",
                  entity_type := some "user", entity_id := some u.id,
                  details := none }]) := by
  refine ⟨?_, ?_, ?_⟩
  · intro db verify now email password hfail
    by_cases he : email = "" ∨ password = ""
    · simp [loginExpress, he]
    · cases hf : db.users.find? (·.email = lowerStr email) with
      | none => simp [loginExpress, he, hf]
      | some u => simp [loginExpress, he, hf, hfail u hf]
  · intro db verify now email password hfail
    by_cases he : email = "" ∨ password = ""
    · simp [loginServerless, he]
    · cases hf : db.users.find? (·.email = email) with
      | none => simp [loginServerless, he, hf]
      | some u => simp [loginServerless, he, hf, hfail u hf]
  · intro db verify now email password u hne hnp hfind hok
    simp [loginExpress, hne, hnp, hfind, hok, logActivity]

/-- C10 witness: the failing logins of the sample store leave it
untouched. -/
theorem c10_login_failure_pure_witness :
    (loginExpress sampleDb "ghost@x.com" "pw" (fun _ _ => false) 7).2 = sampleDb ∧
    (loginExpress sampleDb "Admin@powerhousegym.com" "pw" (fun _ _ => false) 7).2
      = sampleDb :=
  ⟨c10_login_failure_pure.1 sampleDb (fun _ _ => false) 7 "ghost@x.com" "pw"
      (fun _ _ => rfl),
   c10_login_failure_pure.1 sampleDb (fun _ _ => false) 7
      "Admin@powerhousegym.com" "pw" (fun _ _ => rfl)⟩

/-- `JSON.stringify` of an array never yields the empty (falsy) text. -/
theorem stringifyFeatures_ne_empty (l : List String) : stringifyFeatures l ≠ "" := by
  intro h
  have := congrArg String.data h
  simp [stringifyFeatures] at this

/-- C9 (confirmed): creating a plan with any ordered list of feature
strings stores the serialized form, and both the creation response and a
subsequent `get` — and the authenticated `list`, when the other stored rows
deserialize — return `features` as the same ordered list of strings. -/
theorem c9_features_roundtrip (db : Db) (uid : Nat) (nm : String) (pr : Int)
    (l : List String) (bp ds : Option String) (ft ia : Option Bool)
    (so : Option Int)
    (hname : nm ≠ "")
    (hfresh : ∀ p ∈ db.membership_plans, p.id ≠ db.next_plan_id)
    (hparse : ∀ p ∈ db.membership_plans, (parsePlanFeatures p).isSome = true) :
    (∃ out, (createPlan db uid
        { name := some nm, price := some pr, billing_period := bp,
          description := ds, features := some (.arr l), is_featured := ft,
          is_active := ia, sort_order := so }).1 = .ok out ∧
      out.features = l) ∧
    (∃ out, getPlan ((createPlan db uid
        { name := some nm, price := some pr, billing_period := bp,
          description := ds, features := some (.arr l), is_featured := ft,
          is_active := ia, sort_order := so }).2) false db.next_plan_id
        = .ok out ∧
      out.features = l) ∧
    (∃ outs out, listPlans ((createPlan db uid
        { name := some nm, price := some pr, billing_period := bp,
          description := ds, features := some (.arr l), is_featured := ft,
          is_active := ia, sort_order := so }).2) true = .ok outs ∧
      out ∈ outs ∧ out.id = db.next_plan_id ∧ out.features = l) := by
  set p : Plan :=
    { id := db.next_plan_id
      name := nm
      price := pr
      billing_period := jsOrStr bp "month"
      description := jsOrStr ds ""
      features := stringifyFeatures l
      is_featured := ft.getD false
      is_active := ia.getD true
      sort_order := jsOrInt so 0
      created_at := 0 } with hp
  have hpf : parsePlanFeatures p = some (planOut p l) := by
    unfold parsePlanFeatures
    rw [if_neg (by simpa [hp] using stringifyFeatures_ne_empty l)]
    simp [hp, parseFeatures_stringify]
  have hcreate : createPlan db uid
      { name := some nm, price := some pr, billing_period := bp,
        description := ds, features := some (.arr l), is_featured := ft,
        is_active := ia, sort_order := so }
      = (.ok (planOut p l),
         logActivity
           { db with membership_plans := db.membership_plans ++ [p],
                     next_plan_id := db.next_plan_id + 1 }
           uid "create" (some "membership_plan") (some p.id)
           (some ("Created plan: " ++ nm))) := by
    simp only [createPlan, featuresToJson, Option.getD_some]
    rw [if_neg (by simp [hname])]
    rw [← hp, hpf]
  have hafter : ((createPlan db uid
      { name := some nm, price := some pr, billing_period := bp,
        description := ds, features := some (.arr l), is_featured := ft,
        is_active := ia, sort_order := so }).2).membership_plans
      = db.membership_plans ++ [p] := by
    rw [hcreate]
    rfl
  have hfind : (db.membership_plans ++ [p]).find? (·.id = db.next_plan_id)
      = some p := by
    rw [List.find?_append]
    have h1 : db.membership_plans.find? (·.id = db.next_plan_id) = none :=
      List.find?_eq_none.mpr (fun x hx => by simpa using hfresh x hx)
    simp [h1, hp]
  refine ⟨⟨planOut p l, by rw [hcreate], rfl⟩, ⟨planOut p l, ?_, rfl⟩, ?_⟩
  · simp only [getPlan, hafter, hfind, hpf]
  · have hall : ∀ x ∈ sortBy (fun a b => leSortOnly a.sort_order b.sort_order)
        (db.membership_plans ++ [p]), (parsePlanFeatures x).isSome = true := by
      intro x hx
      have hx2 := (sortBy_perm _ _).mem_iff.mp hx
      rcases List.mem_append.mp hx2 with hin | hself
      · exact hparse x hin
      · rw [List.mem_singleton.mp hself, hpf]
        rfl
    obtain ⟨ys, hys, hmem⟩ := mapMOpt_mem parsePlanFeatures _ hall
    refine ⟨ys, planOut p l, ?_, ?_, rfl, rfl⟩
    · simp only [listPlans, listPlansRaw, if_true, hafter]
      rw [hys]
    · refine hmem p ?_ _ hpf
      exact (sortBy_perm _ _).mem_iff.mpr (List.mem_append.mpr (.inr (List.mem_singleton.mpr rfl)))

/-- C9 witness: the specification's scenario — create
`{name: "Basic", price: 2000, features: ["Gym Access"]}` and read it
back. -/
theorem c9_features_roundtrip_witness :
    ∃ out, getPlan ((createPlan emptyPlansDb 1
        { name := some "Basic", price := some 2000, billing_period := none,
          description := none, features := some (.arr ["Gym Access"]),
          is_featured := none, is_active := none, sort_order := none }).2)
        false emptyPlansDb.next_plan_id = .ok out ∧
      out.features = ["Gym Access"] :=
  (c9_features_roundtrip emptyPlansDb 1 "Basic" 2000 ["Gym Access"]
    none none none none none (by decide) (by simp [emptyPlansDb])
    (by simp [emptyPlansDb])).2.1

end Gym
